import Mathlib

/-!
Shallow embedding of the MT4/MT5 Forex signal-copier bot (`run.py`):
the signal parser, the pip-multiplier heuristic, the risk/position-size
calculator, and the trade-lifecycle handlers around `connect_and_process`.

Prices and monetary amounts are modelled as exact rationals (`ℚ`), the
decimal values the program's numbers denote; Python 3's `round` (round
half to even) is modelled by `pyRound`, `math.floor` by `Int.floor`.
Text is modelled as lists of characters so that every operation is a
structural recursion the kernel can evaluate.
-/

set_option maxRecDepth 20000

set_option allowUnsafeReducibility true

attribute [semireducible] Rat.mul Rat.inv Rat.add Rat.sub Rat.ofScientific

namespace SignalBot

/-- Whitespace characters recognised by Python's `str.strip` / `str.split()`. -/
def isWs (c : Char) : Bool :=
  c.toNat = 32 || c.toNat = 9 || c.toNat = 10 || c.toNat = 11 || c.toNat = 12 || c.toNat = 13

/-- ASCII lower-casing of one character (Python `str.lower`). -/
def lowCh (c : Char) : Char :=
  if 65 ≤ c.toNat ∧ c.toNat ≤ 90 then Char.ofNat (c.toNat + 32) else c

/-- ASCII upper-casing of one character (Python `str.upper`). -/
def upCh (c : Char) : Char :=
  if 97 ≤ c.toNat ∧ c.toNat ≤ 122 then Char.ofNat (c.toNat - 32) else c

def toLowerL (l : List Char) : List Char := l.map lowCh

def toUpperL (l : List Char) : List Char := l.map upCh

/-- Split a character list at every character satisfying `p` (separators dropped). -/
def splitBy (p : Char → Bool) : List Char → List (List Char)
  | [] => [[]]
  | a :: t =>
    match splitBy p t with
    | [] => [[a]]
    | h :: hs => if p a then [] :: h :: hs else (a :: h) :: hs

/-- Python `str.strip()`. -/
def trimL (l : List Char) : List Char :=
  ((l.dropWhile isWs).reverse.dropWhile isWs).reverse

/-- `[l.strip() for l in text.splitlines() if l.strip()]` (run.py line 66);
the signals at issue use `\n` separators, and a stray `\r` is stripped. -/
def pyLines (text : String) : List (List Char) :=
  ((splitBy (fun c => c.toNat = 10) text.data).map trimL).filter (fun l => l ≠ [])

/-- Python `str.split()` with no arguments: split on whitespace runs, dropping empties. -/
def wordsL (l : List Char) : List (List Char) :=
  (splitBy isWs l).filter (fun w => w ≠ [])

/-- `line.split()[-1]` — the last whitespace-separated token (callers pass
nonempty stripped lines, so the default `[]` is unreachable there). -/
def lastWord (l : List Char) : List Char := (wordsL l).getLast?.getD []

/-- Does the list start with the given pattern? -/
def startsWithL : List Char → List Char → Bool
  | _, [] => true
  | [], _ :: _ => false
  | a :: s, b :: t => a = b && startsWithL s t

/-- Python's `needle in hay` substring test. -/
def containsL : List Char → List Char → Bool
  | [], needle => needle.isEmpty
  | a :: t, needle => startsWithL (a :: t) needle || containsL t needle

def isDigitCh (c : Char) : Bool := 48 ≤ c.toNat && c.toNat ≤ 57

def digitsVal (l : List Char) : ℕ := l.foldl (fun a c => a * 10 + (c.toNat - 48)) 0

/-- Python `float(s)` on plain decimal tokens: optional sign, digits with at
most one point, at least one digit overall.  (Exponent / `inf` / `nan` /
underscore forms never occur in the signals this program handles.) -/
def pyFloat (s : List Char) : Option ℚ :=
  let signed : ℚ × List Char :=
    match s with
    | '+' :: t => (1, t)
    | '-' :: t => (-1, t)
    | _ => (1, s)
  let ip := signed.2.takeWhile (fun c => c ≠ '.')
  match signed.2.dropWhile (fun c => c ≠ '.') with
  | [] =>
    if ip ≠ [] ∧ ip.all isDigitCh then some (signed.1 * digitsVal ip) else none
  | _ :: fp =>
    if (ip ≠ [] ∨ fp ≠ []) ∧ ip.all isDigitCh ∧ fp.all isDigitCh then
      some (signed.1 * ((digitsVal ip : ℚ) + (digitsVal fp : ℚ) / 10 ^ fp.length))
    else none

/-- Python 3 `round` to an integer: round half to even. -/
def pyRound (q : ℚ) : ℤ :=
  let f := ⌊q⌋
  let r := q - (f : ℚ)
  if r < 1 / 2 then f
  else if 1 / 2 < r then f + 1
  else if f % 2 = 0 then f else f + 1

/-- The instrument allow-list (`SYMBOLS`, run.py lines 36–40).
Note that it contains the literal "NOW". -/
def SYMBOLS : List String :=
  ["AUDCAD", "AUDCHF", "AUDJPY", "AUDNZD", "AUDUSD", "CADCHF", "CADJPY",
   "CHFJPY", "EURAUD", "EURCAD", "EURCHF", "EURGBP", "EURJPY", "EURNZD",
   "EURUSD", "GBPAUD", "GBPCAD", "GBPCHF", "GBPJPY", "GBPNZD", "GBPUSD",
   "NOW", "NZDCAD", "NZDCHF", "NZDJPY", "NZDUSD", "USDCAD", "USDCHF",
   "USDJPY", "XAGUSD", "XAUUSD"]

/-- The six order-type strings `parse_signal` can produce. -/
inductive OrderType
  | buy | sell | buyLimit | sellLimit | buyStop | sellStop
deriving DecidableEq, Repr

/-- `trade["Entry"]`: either a parsed decimal price, or the literal "NOW". -/
inductive EntryVal
  | now
  | price (q : ℚ)
deriving DecidableEq, Repr

/-- The dict returned by `parse_signal` on success. -/
structure Order where
  orderType : OrderType
  symbol : String
  entry : EntryVal
  stopLoss : ℚ
  tp : List ℚ
  riskFactor : ℚ
deriving DecidableEq, Repr

/-- The distinct failure sites of `parse_signal`.  The code collapses all of
them into the same empty dict `{}`; this type labels which check rejected
the input, so that the collapse itself can be stated. -/
inductive ParseErr
  | noLines | unknownOrderType | unknownSymbol | insufficientLines
  | invalidEntry | invalidStopLoss | invalidTakeProfit
deriving DecidableEq, Repr

/-- The order-type cascade on the lower-cased first line (run.py lines 72–86),
in the source's check order. -/
def orderTypeOf (first : List Char) : Option OrderType :=
  if containsL first ("buy limit".data) then some .buyLimit
  else if containsL first ("sell limit".data) then some .sellLimit
  else if containsL first ("buy stop".data) then some .buyStop
  else if containsL first ("sell stop".data) then some .sellStop
  else if startsWithL first ("buy".data) then some .buy
  else if startsWithL first ("sell".data) then some .sell
  else none

/-- The tail of `parse_signal` after the order-type and symbol checks
(run.py lines 96–129): the four-line length check, then entry (the "NOW"
sentinel or a decimal), stop-loss, and one or two take-profits; lines past
the fifth are ignored. -/
def parseRest (risk : ℚ) (ot : OrderType) (symbol : String) :
    List (List Char) → Except ParseErr Order
  | l1 :: l2 :: l3 :: rest4 =>
    match (if toUpperL (lastWord l1) = ("NOW".data) then Except.ok EntryVal.now
      else
        match pyFloat (toUpperL (lastWord l1)) with
        | some q => Except.ok (EntryVal.price q)
        | none => Except.error ParseErr.invalidEntry) with
    | .error e => .error e
    | .ok entry =>
      match pyFloat (lastWord l2) with
      | none => .error .invalidStopLoss
      | some sl =>
        match pyFloat (lastWord l3) with
        | none => .error .invalidTakeProfit
        | some tp1 =>
          match rest4 with
          | [] => .ok ⟨ot, symbol, entry, sl, [tp1], risk⟩
          | l4 :: _ =>
            match pyFloat (lastWord l4) with
            | none => .error .invalidTakeProfit
            | some tp2 => .ok ⟨ot, symbol, entry, sl, [tp1, tp2], risk⟩
  | _ => .error .insufficientLines

/-- `parse_signal` (run.py lines 61–129), check for check in source order,
with every `return {}` site labelled by its `ParseErr`.  The order-type and
symbol checks run on line 1 before the four-line length check, exactly as in
the source. -/
def parseDetailed (risk : ℚ) (text : String) : Except ParseErr Order :=
  match pyLines text with
  | [] => .error .noLines
  | l0 :: rest =>
    match orderTypeOf (toLowerL l0) with
    | none => .error .unknownOrderType
    | some ot =>
      if String.mk (toUpperL (lastWord l0)) ∈ SYMBOLS then
        parseRest risk ot (String.mk (toUpperL (lastWord l0))) rest
      else .error .unknownSymbol

/-- `parse_signal` as its callers observe it: the parsed dict, or the single
undifferentiated empty dict `{}` (here `none`) on every failure. -/
def parse_signal (risk : ℚ) (text : String) : Option Order :=
  (parseDetailed risk text).toOption

/-- Exponent of `p` in `d` by repeated division (the extra argument is fuel,
initially `d` itself). -/
def padicAux (p : ℕ) : ℕ → ℕ → ℕ
  | 0, _ => 0
  | fuel + 1, d => if 2 ≤ p ∧ d ≠ 0 ∧ d % p = 0 then padicAux p fuel (d / p) + 1 else 0

def padicCount (p d : ℕ) : ℕ := padicAux p d d

/-- Fractional digits of the shortest decimal form of `q`: the least `n` with
`q * 10 ^ n` integral, computed as `max` of the 2- and 5-exponents of the
reduced denominator (values reaching the multiplier are terminating
decimals). -/
def fracDigits (q : ℚ) : ℕ := max (padicCount 2 q.den) (padicCount 5 q.den)

/-- Decimal digit count of a natural number (fuel = the number itself). -/
def digitsLenAux : ℕ → ℕ → ℕ
  | 0, _ => 0
  | fuel + 1, n => if n < 10 then 1 else digitsLenAux fuel (n / 10) + 1

def digitsLen (n : ℕ) : ℕ := digitsLenAux (n + 1) n

def ratAbs (q : ℚ) : ℚ := if q < 0 then -q else q

/-- `|q| * 10 ^ fracDigits q` as a natural number — the digit string Python
prints for `q`, without sign or point (exact for terminating decimals). -/
def decMantissa (q : ℚ) : ℕ := q.num.natAbs * 10 ^ fracDigits q / q.den

/-- Significant decimal digits of `q`: its digit string with trailing zeros
stripped — the mantissa Python prints in exponent form. -/
def sigDigits (q : ℚ) : ℕ :=
  digitsLen (decMantissa q / 10 ^ padicCount 10 (decMantissa q))

/-- The decimal exponent of `q` (position of its leading digit), the `E` of
Python's `e±EE` suffix. -/
def decExponent (q : ℚ) : ℤ :=
  (digitsLen (decMantissa q) : ℤ) - 1 - (fracDigits q : ℤ)

/-- What `f"{x}".split(".")` sees (run.py lines 146–148): `none` when the
repr has no point, else the length of the part after the point.  Python's
shortest repr is positional exactly for zero and for `1e-4 ≤ |x| < 1e16` —
there the fractional part is the minimal digit string (at least "0", as in
"1900.0").  Outside that range the repr is exponent form `m.mmme±EE`: with a
single significant digit there is no point ("5e-05"); otherwise the part
after the point is the remaining mantissa digits plus the `e±EE` suffix
("1.5e+16" → "5e+16", length 5; "1.5e-200" → "5e-200", length 6). -/
def pyFracPartLen (q : ℚ) : Option ℕ :=
  if q = 0 then some 1
  else if 1 / 10000 ≤ ratAbs q ∧ ratAbs q < 10 ^ 16 then some (max (fracDigits q) 1)
  else if sigDigits q = 1 then none
  else some (sigDigits q - 1 + (2 + max 2 (digitsLen (decExponent q).natAbs)))

/-- `_get_multiplier` (run.py lines 132–154): metal overrides first, then the
sentinel default, then the repr inspection — "." present and ≥ 3 characters
after it give 0.01, anything else the default 0.0001. -/
def _get_multiplier (symbol : String) (e : EntryVal) : ℚ :=
  if symbol = "XAUUSD" then 1 / 10
  else if symbol = "XAGUSD" then 1 / 1000
  else
    match e with
    | .now => 1 / 10000
    | .price q =>
      match pyFracPartLen q with
      | some d => if 3 ≤ d then 1 / 100 else 1 / 10000
      | none => 1 / 10000

/-- `abs(round((a - b) / m))` — signed difference, rounded, absolute value. -/
def pipDist (a b m : ℚ) : ℕ := (pyRound ((a - b) / m)).natAbs

/-- run.py lines 238–240: `pos = ((balance * risk) / slp) / 10` then
`math.floor(pos * 100) / 100`. -/
def positionSize (balance risk : ℚ) (slp : ℕ) : ℚ :=
  (⌊balance * risk / (slp : ℚ) / 10 * 100⌋ : ℚ) / 100

instance {ε α : Type} [DecidableEq ε] [DecidableEq α] : DecidableEq (Except ε α) :=
  fun x y =>
  match x, y with
  | .ok a, .ok b =>
    if h : a = b then .isTrue (congrArg Except.ok h)
    else .isFalse (fun hc => h (by injection hc))
  | .ok _, .error _ => .isFalse (fun hc => Except.noConfusion hc)
  | .error _, .ok _ => .isFalse (fun hc => Except.noConfusion hc)
  | .error e, .error f =>
    if h : e = f then .isTrue (congrArg Except.error h)
    else .isFalse (fun hc => h (by injection hc))

structure RiskComp where
  multiplier : ℚ
  stopLossPips : ℕ
  positionSize : ℚ
  takeProfitPips : List ℕ
deriving DecidableEq, Repr

inductive RiskErr
  | zeroMultiplier | zeroWidthStop
deriving DecidableEq, Repr

/-- The sizing section of `connect_and_process` (run.py lines 225–245) as a
pure function of the already-resolved numeric entry: multiplier, the
zero-multiplier guard, stop-loss pips, the zero-width-stop guard, position
size, take-profit pips. -/
def computeRisk (symbol : String) (entry sl : ℚ) (tps : List ℚ)
    (risk balance : ℚ) : Except RiskErr RiskComp :=
  if _get_multiplier symbol (.price entry) = 0 then .error .zeroMultiplier
  else if pipDist sl entry (_get_multiplier symbol (.price entry)) = 0 then
    .error .zeroWidthStop
  else
    .ok ⟨_get_multiplier symbol (.price entry),
      pipDist sl entry (_get_multiplier symbol (.price entry)),
      positionSize balance risk (pipDist sl entry (_get_multiplier symbol (.price entry))),
      tps.map (fun tp => pipDist tp entry (_get_multiplier symbol (.price entry)))⟩

/-- The numeric value the entry resolves to (run.py lines 217–222): the "NOW"
sentinel becomes the venue's bid for order type exactly "Buy" and the ask for
every other order type; a numeric entry is kept. -/
def resolvedEntry (o : Order) (bid ask : ℚ) : ℚ :=
  match o.entry with
  | .now => if o.orderType = .buy then bid else ask
  | .price q => q

/-- The conditional mutation of `trade["Entry"]` itself (run.py lines 217–222):
assigned only when the entry is the sentinel. -/
def resolveEntry (o : Order) (bid ask : ℚ) : Order :=
  match o.entry with
  | .now => { o with entry := .price (if o.orderType = .buy then bid else ask) }
  | .price _ => o

/-- The venue (MetaApi account + RPC connection) as `connect_and_process`
observes it: whether the connect/deploy/synchronize/account-info phase
succeeds, the balance, the live quote, and the outcome of each
order-submission call (indexed by position in the submission loop). -/
structure Venue where
  connectOk : Bool
  balance : ℚ
  bid : ℚ
  ask : ℚ
  submitOk : ℕ → Bool

/-- The user-visible replies `connect_and_process` and the handlers emit,
in emission order. -/
inductive Msg
  | connected
  | zeroMultiplier
  | zeroWidthStop
  | table (slp : ℕ) (pos : ℚ) (tpPips : List ℕ)
  | entering
  | executed
  | submitFailed
  | connectFailed
  | promptDecision
deriving DecidableEq, Repr

/-- One `create_*_order` call: its position in the loop, the venue operation
selected by the order type, the volume passed (the per-target share), the
take-profit passed, and whether the venue accepted it. -/
structure Submission where
  idx : ℕ
  kind : OrderType
  volume : ℚ
  tp : ℚ
  accepted : Bool
deriving DecidableEq, Repr

/-- `share = trade["PositionSize"] / max(1, len(trade["TP"]))` (run.py line 257). -/
def tradeShare (pos : ℚ) (n : ℕ) : ℚ := pos / ((max 1 n : ℕ) : ℚ)

/-- The submission loop (run.py lines 256–281): one order per take-profit,
issued sequentially.  The whole loop sits inside a single `try`, so the first
rejected call raises and the remaining take-profits are never submitted. -/
def submitLoop (ok : ℕ → Bool) (kind : OrderType) (vol : ℚ) :
    List ℚ → ℕ → List Submission × Bool
  | [], _ => ([], true)
  | tp :: rest, i =>
    if ok i then
      let r := submitLoop ok kind vol rest (i + 1)
      (⟨i, kind, vol, tp, true⟩ :: r.1, r.2)
    else ([⟨i, kind, vol, tp, false⟩], false)

/-- Result of one `connect_and_process` call: the replies in emission order,
the (possibly entry-resolved) trade dict, and the submissions attempted. -/
structure CAPResult where
  msgs : List Msg
  trade : Order
  subs : List Submission
deriving DecidableEq, Repr

/-- `connect_and_process` (run.py lines 193–290).  The outer `try` turns any
connectivity failure into the single connection-error reply; otherwise the
code resolves the entry, runs the sizing section (multiplier guard,
zero-width-stop guard, position size, take-profit pips), posts the table,
and — when `enter` — runs the submission loop inside the inner `try`,
reporting one aggregate success or failure reply. -/
def connect_and_process (v : Venue) (trade : Order) (enter : Bool) : CAPResult :=
  if v.connectOk then
    match computeRisk trade.symbol (resolvedEntry trade v.bid v.ask) trade.stopLoss
        trade.tp trade.riskFactor v.balance with
    | .error .zeroMultiplier =>
      ⟨[.connected, .zeroMultiplier], resolveEntry trade v.bid v.ask, []⟩
    | .error .zeroWidthStop =>
      ⟨[.connected, .zeroWidthStop], resolveEntry trade v.bid v.ask, []⟩
    | .ok rc =>
      if enter then
        ⟨[.connected, .table rc.stopLossPips rc.positionSize rc.takeProfitPips, .entering,
          if (submitLoop v.submitOk trade.orderType
              (tradeShare rc.positionSize trade.tp.length) trade.tp 0).2 then .executed
          else .submitFailed],
         resolveEntry trade v.bid v.ask,
         (submitLoop v.submitOk trade.orderType
           (tradeShare rc.positionSize trade.tp.length) trade.tp 0).1⟩
      else
        ⟨[.connected, .table rc.stopLossPips rc.positionSize rc.takeProfitPips],
         resolveEntry trade v.bid v.ask, []⟩
  else ⟨[.connectFailed], trade, []⟩

/-- The `ConversationHandler` states (run.py line 33) plus the terminal
`ConversationHandler.END`. -/
inductive Stage
  | awaitTrade | awaitCalculate | decision | ended
deriving DecidableEq, Repr

/-- `calculate_trade_handler` (run.py lines 367–386) on a parsed trade: runs
`connect_and_process` with `enter_trade=False`, then unconditionally asks
"¿Deseás entrar este trade?" and returns the DECISION state — also when the
call ended in a risk or connectivity error. -/
def calculate_trade_handler (v : Venue) (trade : Order) : CAPResult × Stage :=
  let r := connect_and_process v trade false
  (⟨r.msgs ++ [.promptDecision], r.trade, r.subs⟩, .decision)

/-- `place_trade_handler` (run.py lines 345–364) on a parsed trade: runs
`connect_and_process` with `enter_trade=True` and ends the conversation. -/
def place_trade_handler (v : Venue) (trade : Order) : CAPResult × Stage :=
  (connect_and_process v trade true, .ended)

/-- `yes_handler` (run.py lines 389–397) with a pending trade: executes it and
ends the conversation. -/
def yes_handler (v : Venue) (trade : Order) : CAPResult × Stage :=
  (connect_and_process v trade true, .ended)

/-- A healthy venue: connected, balance 10000, quote bid 1 / ask 2, every
submission accepted. -/
def vOkSubmit : Venue := ⟨true, 10000, 1, 2, fun _ => true⟩

/-- A venue whose connect/deploy/synchronize phase fails. -/
def vDown : Venue := ⟨false, 10000, 1, 2, fun _ => true⟩

/-- A venue that rejects the first order submission and accepts the rest. -/
def vFirstRejects : Venue := ⟨true, 10000, 1, 2, fun i => i != 0⟩

/-- A parsed trade whose stop-loss equals its entry (zero-width stop). -/
def tradeZW : Order := ⟨.buy, "GBPUSD", .price (5 / 4), 5 / 4, [63 / 50], 1 / 100⟩

/-- Scenario A's trade with a second take-profit at 1.27. -/
def tradeTwoTp : Order :=
  ⟨.buy, "GBPUSD", .price (5 / 4), 249 / 200, [63 / 50, 127 / 100], 1 / 100⟩

theorem resolveEntry_entry (o : Order) (bid ask : ℚ) :
    (resolveEntry o bid ask).entry = .price (resolvedEntry o bid ask) := by
  cases h : o.entry <;> simp [resolveEntry, resolvedEntry, h]

/-- Every result `parseRest` accepts carries the order type, symbol and risk
fraction it was given. -/
theorem parseRest_ok (risk : ℚ) (ot : OrderType) (sym : String)
    (rest : List (List Char)) (o : Order)
    (h : parseRest risk ot sym rest = .ok o) :
    o.orderType = ot ∧ o.symbol = sym ∧ o.riskFactor = risk := by
  unfold parseRest at h
  repeat' split at h
  any_goals exact Except.noConfusion h
  all_goals
    injection h with h2
  all_goals
    subst h2
  all_goals
    exact ⟨rfl, rfl, rfl⟩

/-- Every order the submission loop issues uses the volume and the
order-type venue operation it was launched with. -/
theorem submitLoop_vol (ok : ℕ → Bool) (kind : OrderType) (vol : ℚ) :
    ∀ (tps : List ℚ) (i : ℕ) (s : Submission),
      s ∈ (submitLoop ok kind vol tps i).1 → s.volume = vol ∧ s.kind = kind := by
  intro tps
  induction tps with
  | nil => intro i s hs; simp [submitLoop] at hs
  | cons tp rest ih =>
    intro i s hs
    by_cases hok : ok i
    · simp only [submitLoop, hok, if_true] at hs
      rcases List.mem_cons.mp hs with h' | h'
      · subst h'; exact ⟨rfl, rfl⟩
      · exact ih (i + 1) s h'
    · simp only [submitLoop, hok, if_false, Bool.false_eq_true] at hs
      rcases List.mem_singleton.mp hs with h'
      subst h'; exact ⟨rfl, rfl⟩

/-- When the venue accepts every call, the loop submits one accepted order
per take-profit and reports success. -/
theorem submitLoop_all (ok : ℕ → Bool) (kind : OrderType) (vol : ℚ)
    (hall : ∀ j, ok j = true) :
    ∀ (tps : List ℚ) (i : ℕ),
      (submitLoop ok kind vol tps i).1.length = tps.length ∧
      (submitLoop ok kind vol tps i).2 = true ∧
      ∀ s ∈ (submitLoop ok kind vol tps i).1, s.accepted = true := by
  intro tps
  induction tps with
  | nil => intro i; simp [submitLoop]
  | cons tp rest ih =>
    intro i
    have h2 := ih (i + 1)
    simp only [submitLoop, hall i, if_true]
    refine ⟨by simp [h2.1], h2.2.1, ?_⟩
    intro s hs
    rcases List.mem_cons.mp hs with h' | h'
    · subst h'; rfl
    · exact h2.2.2 s h'

/-- `positionSize` is nonnegative whenever `balance * risk` is. -/
theorem positionSize_nonneg (b r : ℚ) (slp : ℕ) (h : 0 ≤ b * r) :
    0 ≤ positionSize b r slp := by
  unfold positionSize
  have hx : 0 ≤ b * r / (slp : ℚ) / 10 * 100 :=
    mul_nonneg (div_nonneg (div_nonneg h (Nat.cast_nonneg slp)) (by norm_num)) (by norm_num)
  have hf : (0 : ℤ) ≤ ⌊b * r / (slp : ℚ) / 10 * 100⌋ := Int.floor_nonneg.mpr hx
  have hf2 : (0 : ℚ) ≤ (⌊b * r / (slp : ℚ) / 10 * 100⌋ : ℚ) := by exact_mod_cast hf
  exact div_nonneg hf2 (by norm_num)

/-- The two-decimal floor underflows to zero exactly when the raw size is
below 0.01 lots. -/
theorem positionSize_eq_zero_iff (b r : ℚ) (slp : ℕ) (h : 0 ≤ b * r) :
    positionSize b r slp = 0 ↔ b * r / (slp : ℚ) / 10 < 1 / 100 := by
  unfold positionSize
  have hx : 0 ≤ b * r / (slp : ℚ) / 10 :=
    div_nonneg (div_nonneg h (Nat.cast_nonneg slp)) (by norm_num)
  constructor
  · intro h0
    have hz2 : ⌊b * r / (slp : ℚ) / 10 * 100⌋ = 0 := by
      rcases div_eq_zero_iff.mp h0 with h' | h'
      · exact_mod_cast h'
      · norm_num at h'
    have hlt : b * r / (slp : ℚ) / 10 * 100 < 1 := by
      have := (Int.floor_eq_zero_iff.mp hz2).2
      simpa using this
    linarith
  · intro hlt
    have hlt2 : b * r / (slp : ℚ) / 10 * 100 < 1 := by
      have := mul_lt_mul_of_pos_right hlt (by norm_num : (0 : ℚ) < 100)
      calc b * r / (slp : ℚ) / 10 * 100 < 1 / 100 * 100 := this
        _ = 1 := by norm_num
    have hz : ⌊b * r / (slp : ℚ) / 10 * 100⌋ = 0 := by
      rw [Int.floor_eq_zero_iff]
      constructor
      · exact mul_nonneg hx (by norm_num)
      · simpa using hlt2
    rw [hz]
    norm_num

/-- **C1** (corrected).  Scenario A: parsing
`"BUY GBPUSD\nEntry 1.2500\nSL 1.2450\nTP 1.2600"` and sizing it at balance
10000 with risk fraction 0.01 yields multiplier 0.0001, stopLossPips 50,
takeProfitPips [100], and positionSize = floor((10000·0.01/50)/10·100)/100
= **0.2** (= 1/5), the value of the claim's own formula — not 0.4. -/
theorem C1_scenarioA :
    parse_signal (1 / 100) "BUY GBPUSD\nEntry 1.2500\nSL 1.2450\nTP 1.2600" =
      some ⟨.buy, "GBPUSD", .price (5 / 4), 249 / 200, [63 / 50], 1 / 100⟩ ∧
    computeRisk "GBPUSD" (5 / 4) (249 / 200) [63 / 50] (1 / 100) 10000 =
      .ok ⟨1 / 10000, 50, 1 / 5, [100]⟩ ∧
    positionSize 10000 (1 / 100) 50 = 1 / 5 := by
  refine ⟨by decide, by decide, by decide⟩

/-- **C1** counterexample: on Scenario A's input the pipeline's positionSize
is 1/5 = 0.2, and 0.2 ≠ 0.4, so the claimed value 0.4 is wrong. -/
theorem C1_counterexample :
    parse_signal (1 / 100) "BUY GBPUSD\nEntry 1.2500\nSL 1.2450\nTP 1.2600" =
      some ⟨.buy, "GBPUSD", .price (5 / 4), 249 / 200, [63 / 50], 1 / 100⟩ ∧
    computeRisk "GBPUSD" (5 / 4) (249 / 200) [63 / 50] (1 / 100) 10000 =
      .ok ⟨1 / 10000, 50, 1 / 5, [100]⟩ ∧
    ¬ positionSize 10000 (1 / 100) 50 = 2 / 5 := by
  refine ⟨by decide, by decide, by decide⟩

/-- **C7** counterexample: entry 0.00005 (= 1/20000) has 5 ≥ 3 fractional
decimal digits, yet the code returns the default 0.0001 because the repr
"5e-05" has no point; entry 1.5e16 (= 15000000000000000) has 0 < 3
fractional digits, yet the code returns 0.01 because the repr "1.5e+16" has
5 characters after its point.  So "0.01 iff ≥ 3 fractional digits" is false
on the program. -/
theorem C7_counterexample :
    _get_multiplier "GBPUSD" (.price (1 / 20000)) = 1 / 10000 ∧
    3 ≤ fracDigits (1 / 20000) ∧
    _get_multiplier "GBPUSD" (.price 15000000000000000) = 1 / 100 ∧
    fracDigits (15000000000000000 : ℚ) < 3 := by
  refine ⟨by decide, by decide, by decide, by decide⟩

/-- **C7** (corrected).  `_get_multiplier` is a function of
`(symbol, entry)`; metals override everything (0.1 / 0.001); any other
symbol gets 0.0001 for the sentinel.  For a numeric entry the code inspects
Python's shortest repr: in the positional range (`1e-4 ≤ |q| < 1e16`) the
digit rule holds — 0.01 iff the decimal form has ≥ 3 fractional digits;
outside it (and for nonzero `q`) the repr is exponent form and the result is
0.01 iff `q` has at least two significant digits (a single significant digit
prints with no point); zero gets 0.0001. -/
theorem C7_multiplier_cases (s : String) (e : EntryVal) (q : ℚ)
    (h1 : s ≠ "XAUUSD") (h2 : s ≠ "XAGUSD") :
    _get_multiplier "XAUUSD" e = 1 / 10 ∧
    _get_multiplier "XAGUSD" e = 1 / 1000 ∧
    _get_multiplier s .now = 1 / 10000 ∧
    (1 / 10000 ≤ ratAbs q ∧ ratAbs q < 10 ^ 16 →
      (3 ≤ fracDigits q → _get_multiplier s (.price q) = 1 / 100) ∧
      (fracDigits q < 3 → _get_multiplier s (.price q) = 1 / 10000)) ∧
    (q ≠ 0 → ¬ (1 / 10000 ≤ ratAbs q ∧ ratAbs q < 10 ^ 16) →
      (sigDigits q = 1 → _get_multiplier s (.price q) = 1 / 10000) ∧
      (2 ≤ sigDigits q → _get_multiplier s (.price q) = 1 / 100)) ∧
    (q = 0 → _get_multiplier s (.price q) = 1 / 10000) := by
  have hxg : ("XAGUSD" : String) ≠ "XAUUSD" := by decide
  refine ⟨by simp [_get_multiplier], by simp [_get_multiplier, hxg],
    by simp [_get_multiplier, h1, h2], ?_, ?_, ?_⟩
  · intro hpos
    have hq0 : ¬ q = 0 := by
      intro h0
      rw [h0] at hpos
      norm_num [ratAbs] at hpos
    have hd : pyFracPartLen q = some (max (fracDigits q) 1) := by
      unfold pyFracPartLen
      rw [if_neg hq0, if_pos hpos]
    constructor
    · intro h3
      have h4 : 3 ≤ max (fracDigits q) 1 := le_trans h3 (Nat.le_max_left _ _)
      simp [_get_multiplier, h1, h2, hd, h4]
    · intro h3
      have h4 : ¬ 3 ≤ max (fracDigits q) 1 :=
        Nat.not_le.mpr (Nat.max_lt.mpr ⟨h3, by norm_num⟩)
      simp [_get_multiplier, h1, h2, hd, h4]
  · intro hq0 hnot
    constructor
    · intro hs1
      have hd : pyFracPartLen q = none := by
        unfold pyFracPartLen
        rw [if_neg hq0, if_neg hnot, if_pos hs1]
      simp [_get_multiplier, h1, h2, hd]
    · intro hs2
      have hs1 : ¬ sigDigits q = 1 := by omega
      have hd : pyFracPartLen q =
          some (sigDigits q - 1 + (2 + max 2 (digitsLen (decExponent q).natAbs))) := by
        unfold pyFracPartLen
        rw [if_neg hq0, if_neg hnot, if_neg hs1]
      have h3 : 3 ≤ sigDigits q - 1 + (2 + max 2 (digitsLen (decExponent q).natAbs)) := by
        have h5 := Nat.le_max_left 2 (digitsLen (decExponent q).natAbs)
        omega
      simp [_get_multiplier, h1, h2, hd, h3]
  · intro h0
    have hd : pyFracPartLen q = some 1 := by
      unfold pyFracPartLen
      rw [if_pos h0]
    simp [_get_multiplier, h1, h2, hd]

/-- Witness for C7: the metal override on a 4-decimal price, the sentinel,
a positional 4-decimal price (1.2345), a one-significant-digit small price
(0.00005, repr "5e-05"), and a two-significant-digit small price (0.000015,
repr "1.5e-05"). -/
theorem C7_multiplier_cases_witness :
    _get_multiplier "XAUUSD" (.price (2469 / 2000)) = 1 / 10 ∧
    _get_multiplier "GBPUSD" .now = 1 / 10000 ∧
    _get_multiplier "GBPUSD" (.price (2469 / 2000)) = 1 / 100 ∧
    _get_multiplier "GBPUSD" (.price (1 / 20000)) = 1 / 10000 ∧
    _get_multiplier "GBPUSD" (.price (3 / 200000)) = 1 / 100 :=
  ⟨(C7_multiplier_cases "GBPUSD" .now (2469 / 2000) (by decide) (by decide)).1,
   (C7_multiplier_cases "GBPUSD" .now (2469 / 2000) (by decide) (by decide)).2.2.1,
   ((C7_multiplier_cases "GBPUSD" .now (2469 / 2000) (by decide) (by decide)).2.2.2.1
      (by decide)).1 (by decide),
   ((C7_multiplier_cases "GBPUSD" .now (1 / 20000) (by decide) (by decide)).2.2.2.2.1
      (by decide) (by decide)).1 (by decide),
   ((C7_multiplier_cases "GBPUSD" .now (3 / 200000) (by decide) (by decide)).2.2.2.2.1
      (by decide) (by decide)).2 (by decide)⟩

/-- **C9** (confirmed).  For fixed nonnegative balance and risk fraction, the
position size is monotonically non-increasing in the stop-loss pip count. -/
theorem C9_positionSize_antitone (b r : ℚ) (p1 p2 : ℕ)
    (hb : 0 ≤ b) (hr : 0 ≤ r) (h1 : 0 < p1) (h12 : p1 ≤ p2) :
    positionSize b r p2 ≤ positionSize b r p1 := by
  have hbr : 0 ≤ b * r := mul_nonneg hb hr
  have hq1 : (0 : ℚ) < (p1 : ℚ) := by exact_mod_cast h1
  have hq12 : (p1 : ℚ) ≤ (p2 : ℚ) := by exact_mod_cast h12
  unfold positionSize
  have hfl : ⌊b * r / (p2 : ℚ) / 10 * 100⌋ ≤ ⌊b * r / (p1 : ℚ) / 10 * 100⌋ := by
    apply Int.floor_le_floor
    gcongr
  have hfl2 : ((⌊b * r / (p2 : ℚ) / 10 * 100⌋ : ℤ) : ℚ) ≤
      ((⌊b * r / (p1 : ℚ) / 10 * 100⌋ : ℤ) : ℚ) := by exact_mod_cast hfl
  exact (div_le_div_iff_of_pos_right (by norm_num : (0 : ℚ) < 100)).mpr hfl2

/-- Witness for C9: doubling the stop distance from 50 to 100 pips does not
increase the size on a 10000 balance at 1% risk. -/
theorem C9_positionSize_antitone_witness :
    positionSize 10000 (1 / 100) 100 ≤ positionSize 10000 (1 / 100) 50 :=
  C9_positionSize_antitone 10000 (1 / 100) 50 100
    (by norm_num) (by norm_num) (by norm_num) (by norm_num)

/-- **C5** counterexample: a signal with an unrecognisable order type and a
signal with a non-numeric stop-loss fail with the *same* result (the empty
dict, `none`), so the failure carries no specific `ParseError` kind. -/
theorem C5_counterexample :
    parse_signal (1 / 100) "hold EURUSD\nEntry 1.1\nSL 1.0\nTP 1.2" = none ∧
    parse_signal (1 / 100) "BUY EURUSD\nEntry 1.1\nSL abc\nTP 1.2" = none ∧
    parse_signal (1 / 100) "hold EURUSD\nEntry 1.1\nSL 1.0\nTP 1.2" =
      parse_signal (1 / 100) "BUY EURUSD\nEntry 1.1\nSL abc\nTP 1.2" := by
  refine ⟨by decide, by decide, by decide⟩

/-- **C5** (corrected).  Each missing/invalid element is rejected by its own
distinct check, in source order — the labelled view `parseDetailed` returns
the corresponding site for each one — but `parse_signal` erases the label:
every failure is the same undifferentiated empty result. -/
theorem C5_failure_sites :
    (∀ (r : ℚ) (t : String), parse_signal r t = (parseDetailed r t).toOption) ∧
    parseDetailed (1 / 100) "BUY GBPUSD\nEntry 1.1\nSL 1.0" =
      .error .insufficientLines ∧
    parseDetailed (1 / 100) "hold GBPUSD\nEntry 1.1\nSL 1.0\nTP 1.2" =
      .error .unknownOrderType ∧
    parseDetailed (1 / 100) "BUY ABCDEF\nEntry 1.1\nSL 1.0\nTP 1.2" =
      .error .unknownSymbol ∧
    parseDetailed (1 / 100) "BUY GBPUSD\nEntry oops\nSL 1.0\nTP 1.2" =
      .error .invalidEntry ∧
    parseDetailed (1 / 100) "BUY GBPUSD\nEntry 1.1\nSL oops\nTP 1.2" =
      .error .invalidStopLoss ∧
    parseDetailed (1 / 100) "BUY GBPUSD\nEntry 1.1\nSL 1.0\nTP oops" =
      .error .invalidTakeProfit ∧
    (∀ e : ParseErr, (Except.error e : Except ParseErr Order).toOption = none) := by
  refine ⟨fun r t => rfl, by decide, by decide, by decide, by decide, by decide,
    by decide, fun e => rfl⟩

/-- **C8** (confirmed).  The order type is decided from the lower-cased first
line by the exact cascade "buy limit" / "sell limit" / "buy stop" /
"sell stop" / leading "buy" / leading "sell", in that order; parse results
carry the cascade's answer, and a first line matching none of the six fails
at the order-type check. -/
theorem C8_orderType_precedence (r : ℚ) (t : String) (l0 : List Char)
    (rest : List (List Char)) (first : List Char) (o : Order)
    (hl : pyLines t = l0 :: rest) :
    (parseDetailed r t = .ok o → orderTypeOf (toLowerL l0) = some o.orderType) ∧
    (orderTypeOf (toLowerL l0) = none →
      parseDetailed r t = .error .unknownOrderType) ∧
    (containsL first ("buy limit".data) = true →
      orderTypeOf first = some .buyLimit) ∧
    (containsL first ("buy limit".data) = false →
      containsL first ("sell limit".data) = true →
      orderTypeOf first = some .sellLimit) ∧
    (containsL first ("buy limit".data) = false →
      containsL first ("sell limit".data) = false →
      containsL first ("buy stop".data) = true →
      orderTypeOf first = some .buyStop) ∧
    (containsL first ("buy limit".data) = false →
      containsL first ("sell limit".data) = false →
      containsL first ("buy stop".data) = false →
      containsL first ("sell stop".data) = true →
      orderTypeOf first = some .sellStop) ∧
    (containsL first ("buy limit".data) = false →
      containsL first ("sell limit".data) = false →
      containsL first ("buy stop".data) = false →
      containsL first ("sell stop".data) = false →
      startsWithL first ("buy".data) = true →
      orderTypeOf first = some .buy) ∧
    (containsL first ("buy limit".data) = false →
      containsL first ("sell limit".data) = false →
      containsL first ("buy stop".data) = false →
      containsL first ("sell stop".data) = false →
      startsWithL first ("buy".data) = false →
      startsWithL first ("sell".data) = true →
      orderTypeOf first = some .sell) ∧
    (containsL first ("buy limit".data) = false →
      containsL first ("sell limit".data) = false →
      containsL first ("buy stop".data) = false →
      containsL first ("sell stop".data) = false →
      startsWithL first ("buy".data) = false →
      startsWithL first ("sell".data) = false →
      orderTypeOf first = none) := by
  refine ⟨?_, ?_, ?_, ?_, ?_, ?_, ?_, ?_, ?_⟩
  · intro hok
    simp only [parseDetailed, hl] at hok
    rcases hot : orderTypeOf (toLowerL l0) with _ | ot
    · simp only [hot] at hok
      exact Except.noConfusion hok
    · simp only [hot] at hok
      split at hok
      · rw [(parseRest_ok _ _ _ _ _ hok).1]
      · exact Except.noConfusion hok
  · intro hnone
    simp only [parseDetailed, hl, hnone]
  · intro h1
    simp [orderTypeOf, h1]
  · intro h1 h2
    simp [orderTypeOf, h1, h2]
  · intro h1 h2 h3
    simp [orderTypeOf, h1, h2, h3]
  · intro h1 h2 h3 h4
    simp [orderTypeOf, h1, h2, h3, h4]
  · intro h1 h2 h3 h4 h5
    simp [orderTypeOf, h1, h2, h3, h4, h5]
  · intro h1 h2 h3 h4 h5 h6
    simp [orderTypeOf, h1, h2, h3, h4, h5, h6]
  · intro h1 h2 h3 h4 h5 h6
    simp [orderTypeOf, h1, h2, h3, h4, h5, h6]

/-- Witness for C8 on a concrete "SELL STOP" signal. -/
theorem C8_orderType_precedence_witness :
    pyLines "SELL STOP GBPUSD\nEntry 1.1\nSL 1.2\nTP 1.0" =
      "SELL STOP GBPUSD".data ::
        ["Entry 1.1".data, "SL 1.2".data, "TP 1.0".data] ∧
    orderTypeOf (toLowerL ("SELL STOP GBPUSD".data)) =
      some (Order.orderType
        ⟨.sellStop, "GBPUSD", .price (11 / 10), 6 / 5, [1], 1 / 100⟩) :=
  ⟨by decide,
   (C8_orderType_precedence (1 / 100) "SELL STOP GBPUSD\nEntry 1.1\nSL 1.2\nTP 1.0"
      ("SELL STOP GBPUSD".data)
      ["Entry 1.1".data, "SL 1.2".data, "TP 1.0".data]
      ("sell stop gbpusd".data)
      ⟨.sellStop, "GBPUSD", .price (11 / 10), 6 / 5, [1], 1 / 100⟩
      (by decide)).1 (by decide)⟩

/-- **C4** counterexample: at the (positive) balance 1 the Scenario-A risk
computation succeeds with stopLossPips 50 ≠ 0 and positionSize exactly 0 —
the two-decimal floor underflows, so success does not imply a strictly
positive size. -/
theorem C4_counterexample :
    computeRisk "GBPUSD" (5 / 4) (249 / 200) [63 / 50] (1 / 100) 1 =
      .ok ⟨1 / 10000, 50, 0, [100]⟩ ∧ (0 : ℚ) < 1 ∧ (50 : ℕ) ≠ 0 := by
  refine ⟨by decide, by norm_num, by decide⟩

/-- **C4** (corrected).  A zero-width stop is signalled before sizing, so a
successful computation always has nonzero stop-loss pips and a nonnegative
position size; but the size is zero exactly when the raw (pre-floor) size
falls below 0.01 lots, which can happen at positive balances. -/
theorem C4_success_bounds (sym : String) (entry sl : ℚ) (tps : List ℚ)
    (risk b : ℚ) (rc : RiskComp) (hbr : 0 ≤ b * risk)
    (hok : computeRisk sym entry sl tps risk b = .ok rc) :
    rc.stopLossPips ≠ 0 ∧ 0 ≤ rc.positionSize ∧
    (rc.positionSize = 0 ↔ b * risk / (rc.stopLossPips : ℚ) / 10 < 1 / 100) := by
  unfold computeRisk at hok
  split at hok
  · exact Except.noConfusion hok
  · split at hok
    · exact Except.noConfusion hok
    · rename_i hm hslp
      injection hok with h2
      subst h2
      exact ⟨hslp, positionSize_nonneg _ _ _ hbr, positionSize_eq_zero_iff _ _ _ hbr⟩

/-- Witness for C4 on Scenario A at balance 10000. -/
theorem C4_success_bounds_witness :
    (0 : ℚ) ≤ 10000 * (1 / 100) ∧
    ((⟨1 / 10000, 50, 1 / 5, [100]⟩ : RiskComp).stopLossPips ≠ 0 ∧
      0 ≤ (⟨1 / 10000, 50, 1 / 5, [100]⟩ : RiskComp).positionSize ∧
      ((⟨1 / 10000, 50, 1 / 5, [100]⟩ : RiskComp).positionSize = 0 ↔
        10000 * (1 / 100) /
          (((⟨1 / 10000, 50, 1 / 5, [100]⟩ : RiskComp).stopLossPips : ℕ) : ℚ) / 10 <
          1 / 100)) :=
  ⟨by norm_num,
   C4_success_bounds "GBPUSD" (5 / 4) (249 / 200) [63 / 50] (1 / 100) 10000
     ⟨1 / 10000, 50, 1 / 5, [100]⟩ (by norm_num) (by decide)⟩

/-- **C3** counterexample: with a zero-width stop (or a venue that cannot
connect), the calculate flow still advances to the DECISION confirmation
stage and asks "enter this trade?", instead of terminating the session. -/
theorem C3_counterexample :
    (calculate_trade_handler vOkSubmit tradeZW).2 = .decision ∧
    (calculate_trade_handler vOkSubmit tradeZW).1.msgs =
      [.connected, .zeroWidthStop, .promptDecision] ∧
    (calculate_trade_handler vDown tradeZW).2 = .decision ∧
    (calculate_trade_handler vDown tradeZW).1.msgs =
      [.connectFailed, .promptDecision] ∧
    Stage.decision ≠ Stage.ended := by
  refine ⟨by decide, by decide, by decide, by decide, by decide⟩

/-- **C3** (corrected).  A connectivity failure yields exactly the single
connection-error reply and a zero-width stop yields exactly the connected +
diagnostic replies — in both cases no table, no submission, no retry inside
the call; the trade and yes flows then end the conversation, but the
calculate flow always proceeds to the DECISION confirmation stage, also
after either error. -/
theorem C3_error_terminality (v w : Venue) (t : Order) (enter : Bool)
    (hv : v.connectOk = false) (hw : w.connectOk = true)
    (hz : computeRisk t.symbol (resolvedEntry t w.bid w.ask) t.stopLoss t.tp
      t.riskFactor w.balance = .error .zeroWidthStop) :
    connect_and_process v t enter = ⟨[.connectFailed], t, []⟩ ∧
    connect_and_process w t enter =
      ⟨[.connected, .zeroWidthStop], resolveEntry t w.bid w.ask, []⟩ ∧
    (place_trade_handler v t).2 = .ended ∧
    (yes_handler w t).2 = .ended ∧
    (calculate_trade_handler w t).2 = .decision := by
  refine ⟨?_, ?_, rfl, rfl, rfl⟩
  · simp [connect_and_process, hv]
  · simp [connect_and_process, hw, hz]

/-- Witness for C3: the healthy venue with a zero-width-stop trade, and the
unreachable venue. -/
theorem C3_error_terminality_witness :
    vDown.connectOk = false ∧ vOkSubmit.connectOk = true ∧
    (connect_and_process vDown tradeZW false = ⟨[.connectFailed], tradeZW, []⟩ ∧
     connect_and_process vOkSubmit tradeZW false =
       ⟨[.connected, .zeroWidthStop],
        resolveEntry tradeZW vOkSubmit.bid vOkSubmit.ask, []⟩ ∧
     (place_trade_handler vDown tradeZW).2 = .ended ∧
     (yes_handler vOkSubmit tradeZW).2 = .ended ∧
     (calculate_trade_handler vOkSubmit tradeZW).2 = .decision) :=
  ⟨rfl, rfl,
   C3_error_terminality vDown vOkSubmit tradeZW false rfl rfl (by decide)⟩

/-- **C2** counterexample: two take-profits, the venue rejects the first
order and would accept the second — yet only the first is ever attempted
(the single `try` around the loop aborts the sibling), and one aggregate
failure reply is sent instead of per-ticket reports. -/
theorem C2_counterexample :
    connect_and_process vFirstRejects tradeTwoTp true =
      ⟨[.connected, .table 50 (1 / 5) [100, 200], .entering, .submitFailed],
       tradeTwoTp, [⟨0, .buy, 1 / 10, 63 / 50, false⟩]⟩ ∧
    vFirstRejects.submitOk 1 = true ∧
    (place_trade_handler vFirstRejects tradeTwoTp).2 = .ended := by
  refine ⟨by decide, by decide, by decide⟩

/-- **C2** (corrected).  Each submitted order does carry the per-target share
`positionSize / count` and the order-type venue operation, orders are issued
sequentially, and the session still terminates; when every call succeeds all
take-profits get their own accepted order — but the first rejected call
aborts the remaining take-profits and produces one aggregate failure reply,
not independent per-ticket outcomes. -/
theorem C2_submission (ok okAll : ℕ → Bool) (kind : OrderType)
    (vol pos tp : ℚ) (tps : List ℚ) (i n : ℕ) (v : Venue) (t : Order)
    (hn : 1 ≤ n) (hfail : ok i = false) (hall : ∀ j, okAll j = true) :
    (∀ s ∈ (submitLoop ok kind vol tps i).1, s.volume = vol ∧ s.kind = kind) ∧
    tradeShare pos n = pos / (n : ℚ) ∧
    submitLoop ok kind vol (tp :: tps) i = ([⟨i, kind, vol, tp, false⟩], false) ∧
    ((submitLoop okAll kind vol tps i).1.length = tps.length ∧
      (submitLoop okAll kind vol tps i).2 = true ∧
      ∀ s ∈ (submitLoop okAll kind vol tps i).1, s.accepted = true) ∧
    (place_trade_handler v t).2 = .ended := by
  refine ⟨fun s hs => submitLoop_vol ok kind vol tps i s hs, ?_, ?_,
    submitLoop_all okAll kind vol hall tps i, rfl⟩
  · unfold tradeShare
    rw [Nat.max_eq_right hn]
  · simp [submitLoop, hfail]

/-- Witness for C2 with the first-rejecting venue and Scenario A's two
take-profits. -/
theorem C2_submission_witness :
    tradeShare (1 / 5) 2 = (1 / 5) / (2 : ℚ) ∧
    submitLoop (fun i => i != 0) .buy (1 / 10) [63 / 50, 127 / 100] 0 =
      ([⟨0, .buy, 1 / 10, 63 / 50, false⟩], false) :=
  ⟨(C2_submission (fun i => i != 0) (fun _ => true) .buy (1 / 10) (1 / 5)
      (63 / 50) [127 / 100] 0 2 vFirstRejects tradeTwoTp
      (by decide) (by decide) (fun j => rfl)).2.1,
   (C2_submission (fun i => i != 0) (fun _ => true) .buy (1 / 10) (1 / 5)
      (63 / 50) [127 / 100] 0 2 vFirstRejects tradeTwoTp
      (by decide) (by decide) (fun j => rfl)).2.2.1⟩

/-- **C6** counterexample: a parseable "buy limit" signal with the sentinel
entry resolves against the ask (2), not the bid (1) — only the exact order
type "Buy" gets the bid, so not every buy order resolves to the bid. -/
theorem C6_counterexample :
    parse_signal (1 / 100) "buy limit now\nentry now\nsl 1.0\ntp 1.2" =
      some ⟨.buyLimit, "NOW", .now, 1, [6 / 5], 1 / 100⟩ ∧
    (resolveEntry ⟨.buyLimit, "NOW", .now, 1, [6 / 5], 1 / 100⟩ 1 2).entry =
      .price 2 ∧
    EntryVal.price (2 : ℚ) ≠ EntryVal.price 1 := by
  refine ⟨by decide, by decide, by decide⟩

/-- **C6** (corrected).  The sentinel is always resolved to a numeric price
before the risk computation runs (and the state machine computes with the
resolved trade); it resolves to the bid only when the order type is exactly
Buy — every other order type, including Buy Limit and Buy Stop, gets the
ask. -/
theorem C6_sentinel_resolution (o : Order) (bid ask : ℚ) (h : o.entry = .now) :
    (resolveEntry o bid ask).entry =
      .price (if o.orderType = .buy then bid else ask) ∧
    (resolveEntry o bid ask).entry ≠ .now ∧
    (o.orderType = .buy → (resolveEntry o bid ask).entry = .price bid) ∧
    (o.orderType ≠ .buy → (resolveEntry o bid ask).entry = .price ask) ∧
    ∀ (v : Venue) (enter : Bool), v.connectOk = true →
      (connect_and_process v o enter).trade = resolveEntry o v.bid v.ask := by
  refine ⟨by simp [resolveEntry, h], by simp [resolveEntry, h], ?_, ?_, ?_⟩
  · intro hb
    simp [resolveEntry, h, hb]
  · intro hb
    simp [resolveEntry, h, hb]
  · intro v enter hv
    rcases hcr : computeRisk o.symbol (resolvedEntry o v.bid v.ask) o.stopLoss
        o.tp o.riskFactor v.balance with e | rc
    · cases e <;> simp [connect_and_process, hv, hcr]
    · by_cases he : enter <;> simp [connect_and_process, hv, hcr, he]

/-- Witness for C6 on the buy-limit trade with sentinel entry, bid 1, ask 2. -/
theorem C6_sentinel_resolution_witness :
    (resolveEntry ⟨.buyLimit, "NOW", .now, 1, [6 / 5], 1 / 100⟩ 1 2).entry =
      .price (if (OrderType.buyLimit = .buy) then 1 else 2) ∧
    (resolveEntry ⟨.buyLimit, "NOW", .now, 1, [6 / 5], 1 / 100⟩ 1 2).entry ≠
      .now :=
  ⟨(C6_sentinel_resolution ⟨.buyLimit, "NOW", .now, 1, [6 / 5], 1 / 100⟩ 1 2 rfl).1,
   (C6_sentinel_resolution ⟨.buyLimit, "NOW", .now, 1, [6 / 5], 1 / 100⟩ 1 2 rfl).2.1⟩

/-- **C10** (confirmed).  "NOW" is a member of the instrument allow-list, so a
first line whose last token is "now" (any case) parses with symbol "NOW". -/
theorem C10_now_in_allowlist :
    "NOW" ∈ SYMBOLS ∧
    parse_signal (1 / 100) "BUY NOW\nEntry 1.1\nSL 1.0\nTP 1.2" =
      some ⟨.buy, "NOW", .price (11 / 10), 1, [6 / 5], 1 / 100⟩ ∧
    parse_signal (1 / 100) "sell Now\nEntry 2.0\nSL 2.1\nTP 1.9" =
      some ⟨.sell, "NOW", .price 2, 21 / 10, [19 / 10], 1 / 100⟩ := by
  refine ⟨by decide, by decide, by decide⟩

end SignalBot
